import Mathlib

/-!
Verification of the ACMOJ command-line client (`acmoj_client.py`).

The development shallowly embeds the program: the transport client
(`ACMOJClient.__init__`, `_make_request`, `submit_solution`,
`get_submission_detail`) and the command-line front end (`main`).  The
outside world is passed in explicitly: the network is a function from the
issued HTTP request to an outcome, and the file system is a function from
a path to the outcome of opening and reading that file.  Machine-level
behaviour of the `requests` library that the code relies on is modelled
where the code depends on it, with a note at each such point.
-/

/-- JSON values: the structured data decoded from a response body by
`response.json()` and serialized by `json.dumps`.  Numbers are modelled as
integers; no claim depends on non-integer numbers. -/
inductive Json where
  | null : Json
  | bool (b : Bool) : Json
  | num (n : Int) : Json
  | str (s : String) : Json
  | arr (elems : List Json) : Json
  | obj (fields : List (String × Json)) : Json

/-- Python truthiness of a decoded JSON value, as tested by `if result:` in
`main`: `None`, `False`, `0`, the empty string, the empty list and the
empty dict are falsy. -/
def Json.truthy : Json → Bool
  | Json.null => false
  | Json.bool b => b
  | Json.num n => n != 0
  | Json.str s => s != ""
  | Json.arr elems => !elems.isEmpty
  | Json.obj fields => !fields.isEmpty

/-- Decimal digit character, `Char.ofNat (48 + d)`. -/
def digitChar (d : Nat) : Char := Char.ofNat (48 + d)

/-- Decimal digits of a natural number, most significant first, computed
with explicit fuel so that the function reduces by evaluation. -/
def natDigitsAux : Nat → Nat → List Char
  | 0, _ => []
  | fuel + 1, n =>
    if n < 10 then [digitChar n]
    else natDigitsAux fuel (n / 10) ++ [digitChar (n % 10)]

/-- Decimal digits of a natural number, most significant first. -/
def natDigits (n : Nat) : List Char := natDigitsAux (n + 1) n

/-- Characters of the decimal representation of an integer, as Python
`str`/`json.dumps` renders an `int`. -/
def intChars (n : Int) : List Char :=
  if n < 0 then '-' :: natDigits (-n).toNat else natDigits n.toNat

/-- Escaping of one character inside a JSON string literal, as performed by
`json.dumps`: quote, backslash and the common control characters get a
two-character escape.  (The `\uXXXX` escapes that `json.dumps` applies to
other control and non-ASCII characters are not modelled; no claim depends
on them, and they too contain no newline.) -/
def escapeChar (c : Char) : List Char :=
  if c = '"' then ['\\', '"']
  else if c = '\\' then ['\\', '\\']
  else if c = '\n' then ['\\', 'n']
  else if c = '\r' then ['\\', 'r']
  else if c = '\t' then ['\\', 't']
  else [c]

/-- Escaping of a character sequence inside a JSON string literal. -/
def escapeList : List Char → List Char
  | [] => []
  | c :: cs => escapeChar c ++ escapeList cs

/-- Characters of a quoted object key followed by the default
key separator of `json.dumps` (a colon and a space). -/
def keyChars (k : String) : List Char := '"' :: (escapeList k.data ++ ['"', ':', ' '])

mutual

/-- Characters of `json.dumps(value)` with Python's default separators
(elements joined by a comma and a space, keys and values joined by a colon
and a space). -/
def dumpsChars : Json → List Char
  | Json.null => "null".data
  | Json.bool true => "true".data
  | Json.bool false => "false".data
  | Json.num n => intChars n
  | Json.str s => '"' :: (escapeList s.data ++ ['"'])
  | Json.arr elems => '[' :: (dumpsArr elems ++ [']'])
  | Json.obj fields => '{' :: (dumpsObj fields ++ ['}'])

/-- Array elements of `json.dumps`, joined by a comma and a space. -/
def dumpsArr : List Json → List Char
  | [] => []
  | [j] => dumpsChars j
  | j :: rest => dumpsChars j ++ (',' :: ' ' :: dumpsArr rest)

/-- Object fields of `json.dumps`, joined by a comma and a space, each key
quoted and followed by a colon and a space. -/
def dumpsObj : List (String × Json) → List Char
  | [] => []
  | [(k, v)] => keyChars k ++ dumpsChars v
  | (k, v) :: rest => keyChars k ++ dumpsChars v ++ (',' :: ' ' :: dumpsObj rest)

end

/-- The text `json.dumps(value)` printed by `main` on success. -/
def Json.dumps (j : Json) : String := String.mk (dumpsChars j)

/-- An HTTP request as issued by the `requests` library calls in
`_make_request`: method, full URL, headers, form-encoded body fields
(`data`, POST only) and query parameters (`params`, GET only). -/
structure HttpRequest where
  method : String
  url : String
  headers : List (String × String)
  data : List (String × String)
  params : List (String × String)
deriving DecidableEq

/-- An HTTP response as observed through the `requests` response object:
the status code, the body text (`response.text`; the code only tests
emptiness via `response.content`, and prints `response.text`), and the
outcome of decoding the body as JSON (`response.json()`), `none` when the
body is not well-formed JSON. -/
structure HttpResponse where
  status_code : Nat
  text : String
  jsonBody : Option Json

/-- Outcome of one network call: either a response arrived, or the
`requests` call itself raised a `RequestException` (timeout, connection
refused, DNS failure, ...) before any response object was bound. -/
inductive NetOutcome where
  | response (r : HttpResponse) : NetOutcome
  | netError (message : String) : NetOutcome

/-- The transport client state built by `ACMOJClient.__init__`: the base
endpoint string and the header mapping. -/
structure ACMOJClient where
  api_base : String
  headers : List (String × String)
deriving DecidableEq

/-- Embeds `ACMOJClient.__init__(access_token)`. -/
def ACMOJClient.init (access_token : String) : ACMOJClient :=
  { api_base := "https://acm.sjtu.edu.cn/OnlineJudge/api/v1",
    headers :=
      [("Authorization", "Bearer " ++ access_token),
       ("Content-Type", "application/x-www-form-urlencoded"),
       ("User-Agent", "ACMOJ-Python-Client/2.1")] }

/-- The message text of the `requests.exceptions.HTTPError` raised by
`response.raise_for_status()` on a 4xx/5xx status.  The library's actual
wording also carries the reason phrase; no claim depends on the exact
text, only on which lines are printed. -/
def httpErrorMessage (status : Nat) (url : String) : String :=
  toString status ++ " Error for url: " ++ url

/-- The message text of the JSON decode error raised by `response.json()`
on a malformed body.  The exact wording comes from the json parser; no
claim depends on it. -/
def jsonErrorMessage : String := "Expecting value"

/-- The synthetic success marker returned for a 204 response. -/
def successMarker204 : Json :=
  Json.obj [("status", Json.str "success"), ("message", Json.str "Operation successful")]

/-- The marker returned for a non-204 success response with an empty body. -/
def successMarkerEmpty : Json := Json.obj [("status", Json.str "success")]

/-- Embeds the part of `_make_request` that runs once the `requests` call
returned or raised: the 204 normalization, `raise_for_status`, the
empty-body check, `response.json()`, and the `except` handler.  Returns
the function result (`None` is `none`) and the list of lines printed.

Library behaviour the code relies on, modelled here:
`raise_for_status` raises exactly for statuses 400-599; in the handler,
`if 'response' in locals() and response:` tests `bool(response)`, which is
`response.ok`, i.e. `status_code < 400` - so for an HTTP-status failure
the `Response text:` line is never printed, while it is in scope; for a
network-level error no response was bound, so the test is also false; a
`response.json()` decode failure raises `requests.exceptions.JSONDecodeError`
(a `RequestException`, requests >= 2.27), is caught, and there
`bool(response)` is true, so the body text is printed. -/
def handleResponse (o : NetOutcome) (url : String) : Option Json × List String :=
  match o with
  | NetOutcome.netError message => (none, ["API Request failed: " ++ message])
  | NetOutcome.response r =>
    if r.status_code == 204 then
      (some successMarker204, [])
    else if 400 ≤ r.status_code ∧ r.status_code < 600 then
      (none, ["API Request failed: " ++ httpErrorMessage r.status_code url])
    else if r.text != "" then
      match r.jsonBody with
      | some j => (some j, [])
      | none =>
        (none, ["API Request failed: " ++ jsonErrorMessage, "Response text: " ++ r.text])
    else
      (some successMarkerEmpty, [])

/-- Outcome of one call into the transport client: the returned value
(`None` is `none`), the network requests issued, the lines printed, and
the client state after the call. -/
structure ReqResult where
  result : Option Json
  requests : List HttpRequest
  printed : List String
  clientAfter : ACMOJClient

/-- Python `method.upper()`: character-wise upper-casing.  (Lean's own
`String.toUpper` is extensionally the same on the ASCII method names the
program uses; the character-wise form is used so that the definition
evaluates.) -/
def pyUpper (s : String) : String := String.mk (s.data.map Char.toUpper)

/-- Embeds `ACMOJClient._make_request(method, endpoint, data, params)`.
The network is the explicit argument `net`.  The source never assigns to
`self.api_base` or `self.headers` (and never mutates the headers dict;
`requests` does not mutate a caller-supplied dict either), so the state
after the call is the state before it, threaded through as
`clientAfter`. -/
def ACMOJClient.make_request (client : ACMOJClient) (net : HttpRequest → NetOutcome)
    (method : String) (endpoint : String)
    (data : List (String × String)) (params : List (String × String)) : ReqResult :=
  let url := client.api_base ++ endpoint
  if pyUpper method == "GET" then
    let req : HttpRequest :=
      { method := "GET", url := url, headers := client.headers, data := [], params := params }
    let h := handleResponse (net req) url
    { result := h.1, requests := [req], printed := h.2, clientAfter := client }
  else if pyUpper method == "POST" then
    let req : HttpRequest :=
      { method := "POST", url := url, headers := client.headers, data := data, params := [] }
    let h := handleResponse (net req) url
    { result := h.1, requests := [req], printed := h.2, clientAfter := client }
  else
    { result := none, requests := [],
      printed := ["Unsupported HTTP method: " ++ method], clientAfter := client }

/-- Embeds `ACMOJClient.submit_solution(problem_id, language, code)`. -/
def ACMOJClient.submit_solution (client : ACMOJClient) (net : HttpRequest → NetOutcome)
    (problem_id : Int) (language : String) (code : String) : ReqResult :=
  ACMOJClient.make_request client net "POST"
    ("/problem/" ++ toString problem_id ++ "/submit")
    [("language", language), ("code", code)] []

/-- Embeds `ACMOJClient.get_submission_detail(submission_id)`. -/
def ACMOJClient.get_submission_detail (client : ACMOJClient) (net : HttpRequest → NetOutcome)
    (submission_id : Int) : ReqResult :=
  ACMOJClient.make_request client net "GET"
    ("/submission/" ++ toString submission_id) [] []

/-- The two subcommands accepted by the argument parser (`required=True`,
so exactly one of them is always present). -/
inductive Command where
  | submit : Command
  | status : Command
deriving DecidableEq

/-- Parsed command-line arguments as `argparse` delivers them to `main`.
`token` already includes the fallback to the `ACMOJ_TOKEN` environment
variable (the parser's `default=os.environ.get("ACMOJ_TOKEN")`): it is
`none` when the flag is absent and the variable unset.  String-valued
optional flags are `none` when absent; an explicitly supplied empty string
is `some ""`.  The per-subcommand required flags (`problem_id`,
`language`, `submission_id`) are plain fields; the ones belonging to the
other subcommand are simply unread. -/
structure Args where
  token : Option String
  command : Command
  problem_id : Int
  language : String
  code_file : Option String
  git_url : Option String
  submission_id : Int

/-- Python truthiness of an optional string (`if not args.token:` and the
payload checks): absent and empty are both falsy. -/
def pyTruthy : Option String → Bool
  | none => false
  | some s => s != ""

/-- Outcome of `open(path, "r", encoding="utf-8")` followed by `f.read()`:
the contents, a `FileNotFoundError`, or any other error raised at the
point of file access (`PermissionError`, `IsADirectoryError`,
`UnicodeDecodeError`, ...), which `main` does not catch. -/
inductive FileOutcome where
  | ok (contents : String) : FileOutcome
  | notFound : FileOutcome
  | otherError (message : String) : FileOutcome

/-- How the process ends: a plain exit with the given status code, or an
exception that propagates out of `main` uncaught (the interpreter then
prints a traceback on the error stream and exits with status 1). -/
inductive ExitKind where
  | normal (code : Nat) : ExitKind
  | uncaught (message : String) : ExitKind
deriving DecidableEq

/-- Observable outcome of one run of `main`: the lines written to standard
output (every `print` in the program writes to standard output), how the
process ends, the network requests issued, whether an `ACMOJClient` was
constructed, and the value of the `result` variable at the final
`if result:` test (`none` when `result` is `None` or never assigned). -/
structure MainResult where
  stdout : List String
  exit : ExitKind
  requests : List HttpRequest
  clientConstructed : Bool
  result : Option Json

/-- The message printed when no access token is available. -/
def tokenErrorMessage : String :=
  "Error: Access token not provided. Use --token or set ACMOJ_TOKEN environment variable."

/-- The message printed when neither payload flag is truthy. -/
def missingPayloadMessage : String :=
  "Error: Either --code-file or --git-url must be provided."

/-- The message printed when both payload flags are truthy. -/
def bothPayloadMessage : String :=
  "Error: Cannot use both --code-file and --git-url at the same time."

/-- The message printed when the code file does not exist. -/
def fileNotFoundMessage (path : String) : String :=
  "Error: Code file not found at " ++ path

/-- Python truthiness of the `result` variable at `if result:`: `None` is
falsy, a decoded JSON value by its own truthiness. -/
def resultTruthy : Option Json → Bool
  | none => false
  | some j => Json.truthy j

/-- The line printed by the final `if result: print(json.dumps(result))`:
one `json.dumps` line when `result` is truthy, nothing otherwise. -/
def finalPrint : Option Json → List String
  | none => []
  | some j => if Json.truthy j then [Json.dumps j] else []

/-- Embeds the tail of `main` after `result` is bound: print the dumped
result and exit 0 when `result` is truthy, otherwise `exit(1)`. -/
def finishResult (pre : List String) (reqs : List HttpRequest) (res : Option Json) :
    MainResult :=
  { stdout := pre ++ finalPrint res,
    exit := ExitKind.normal (if resultTruthy res then 0 else 1),
    requests := reqs, clientConstructed := true, result := res }

/-- Embeds `main()`, with the file system and the network passed in
explicitly.  Note the missing-token branch: the source `return`s from
`main` after printing, so the interpreter exits with status 0 there. -/
def main_run (args : Args) (fs : String → FileOutcome)
    (net : HttpRequest → NetOutcome) : MainResult :=
  if pyTruthy args.token = false then
    { stdout := [tokenErrorMessage], exit := ExitKind.normal 0, requests := [],
      clientConstructed := false, result := none }
  else
    let client := ACMOJClient.init (args.token.getD "")
    match args.command with
    | Command.submit =>
      if pyTruthy args.code_file = false ∧ pyTruthy args.git_url = false then
        { stdout := [missingPayloadMessage], exit := ExitKind.normal 1, requests := [],
          clientConstructed := true, result := none }
      else if pyTruthy args.code_file = true ∧ pyTruthy args.git_url = true then
        { stdout := [bothPayloadMessage], exit := ExitKind.normal 1, requests := [],
          clientConstructed := true, result := none }
      else if pyTruthy args.git_url = true then
        let r := ACMOJClient.submit_solution client net args.problem_id args.language
          (args.git_url.getD "")
        finishResult r.printed r.requests r.result
      else
        match fs (args.code_file.getD "") with
        | FileOutcome.ok code =>
          let r := ACMOJClient.submit_solution client net args.problem_id args.language code
          finishResult r.printed r.requests r.result
        | FileOutcome.notFound =>
          finishResult [fileNotFoundMessage (args.code_file.getD "")] [] none
        | FileOutcome.otherError message =>
          { stdout := [], exit := ExitKind.uncaught message, requests := [],
            clientConstructed := true, result := none }
    | Command.status =>
      let r := ACMOJClient.get_submission_detail client net args.submission_id
      finishResult r.printed r.requests r.result

/-- Classification of the lines the program prints: every diagnostic the
program emits starts with one of these four prefixes (the three `Error:`
messages of `main`, the two `API Request failed:`/`Response text:` lines
of the `except` handler, and the unsupported-method line). -/
def isDiagnostic (s : String) : Prop :=
  (∃ rest, s = "Error: " ++ rest)
  ∨ (∃ rest, s = "API Request failed: " ++ rest)
  ∨ (∃ rest, s = "Response text: " ++ rest)
  ∨ (∃ rest, s = "Unsupported HTTP method: " ++ rest)
/-- Helper: a character absent from both halves is absent from the append. -/
theorem nl_append {a : Char} {l1 l2 : List Char} (h1 : a ∉ l1) (h2 : a ∉ l2) :
    a ∉ l1 ++ l2 := by
  simp only [List.mem_append]
  exact fun h => h.elim h1 h2

/-- Helper: a character distinct from the head and absent from the tail is
absent from the cons. -/
theorem nl_cons {a c : Char} {l : List Char} (h1 : a ≠ c) (h2 : a ∉ l) :
    a ∉ c :: l := by
  simp only [List.mem_cons]
  exact fun h => h.elim h1 h2

theorem escapeChar_no_newline (c : Char) : '\n' ∉ escapeChar c := by
  unfold escapeChar
  split
  · decide
  · split
    · decide
    · split
      · decide
      · split
        · decide
        · split
          · decide
          · rename_i h1 h2 h3 h4 h5
            simp only [List.mem_singleton]
            exact fun h => h3 h.symm

theorem escapeList_no_newline (cs : List Char) : '\n' ∉ escapeList cs := by
  induction cs with
  | nil => simp [escapeList]
  | cons c cs ih => exact nl_append (escapeChar_no_newline c) ih

theorem natDigitsAux_no_newline (fuel n : Nat) : '\n' ∉ natDigitsAux fuel n := by
  induction fuel generalizing n with
  | zero => simp [natDigitsAux]
  | succ fuel ih =>
    have hd : ∀ d : Nat, d < 10 → digitChar d ≠ '\n' := by decide
    simp only [natDigitsAux]
    split
    · rename_i h
      exact nl_cons (fun he => hd n h he.symm) (by simp)
    · exact nl_append (ih _)
        (nl_cons (fun he => hd (n % 10) (Nat.mod_lt _ (by omega)) he.symm) (by simp))

theorem intChars_no_newline (n : Int) : '\n' ∉ intChars n := by
  unfold intChars
  split
  · exact nl_cons (by decide) (natDigitsAux_no_newline _ _)
  · exact natDigitsAux_no_newline _ _

theorem keyChars_no_newline (k : String) : '\n' ∉ keyChars k :=
  nl_cons (by decide) (nl_append (escapeList_no_newline _) (by decide))

mutual

theorem dumpsChars_no_newline : (j : Json) → '\n' ∉ dumpsChars j
  | Json.null => by decide
  | Json.bool true => by decide
  | Json.bool false => by decide
  | Json.num n => intChars_no_newline n
  | Json.str s =>
    nl_cons (by decide) (nl_append (escapeList_no_newline _) (by decide))
  | Json.arr elems =>
    nl_cons (by decide) (nl_append (dumpsArr_no_newline elems) (by decide))
  | Json.obj fields =>
    nl_cons (by decide) (nl_append (dumpsObj_no_newline fields) (by decide))

theorem dumpsArr_no_newline : (elems : List Json) → '\n' ∉ dumpsArr elems
  | [] => by decide
  | [j] => dumpsChars_no_newline j
  | j :: k :: rest =>
    nl_append (dumpsChars_no_newline j)
      (nl_cons (by decide) (nl_cons (by decide) (dumpsArr_no_newline (k :: rest))))

theorem dumpsObj_no_newline : (fields : List (String × Json)) → '\n' ∉ dumpsObj fields
  | [] => by decide
  | [(k, v)] => nl_append (keyChars_no_newline k) (dumpsChars_no_newline v)
  | (k, v) :: f :: rest =>
    nl_append (nl_append (keyChars_no_newline k) (dumpsChars_no_newline v))
      (nl_cons (by decide) (nl_cons (by decide) (dumpsObj_no_newline (f :: rest))))

end

theorem dumps_no_newline (j : Json) : '\n' ∉ (Json.dumps j).data :=
  dumpsChars_no_newline j


/-- Helper: closed method-name computations used to reduce `_make_request`. -/
theorem pyUpper_post_beq_get : (pyUpper "POST" == "GET") = false := rfl

theorem pyUpper_post_beq_post : (pyUpper "POST" == "POST") = true := rfl

theorem pyUpper_get_beq_get : (pyUpper "GET" == "GET") = true := rfl

theorem pyUpper_post_eq : pyUpper "POST" = "POST" := rfl

theorem pyUpper_get_eq : pyUpper "GET" = "GET" := rfl

theorem get_ne_post : ("GET" : String) ≠ "POST" := by decide

theorem post_ne_get : ("POST" : String) ≠ "GET" := by decide

/-- Helper: whenever the shared response handler yields a value, it printed
nothing. -/
theorem handleResponse_some_printed (o : NetOutcome) (url : String) (j : Json)
    (h : (handleResponse o url).1 = some j) : (handleResponse o url).2 = [] := by
  rcases o with r | message
  · by_cases h204 : (r.status_code == 204) = true
    · simp [handleResponse, h204]
    · by_cases h46 : 400 ≤ r.status_code ∧ r.status_code < 600
      · simp [handleResponse, h204, h46] at h
      · by_cases htext : (r.text != "") = true
        · rcases hjb : r.jsonBody with _ | j2
          · simp [handleResponse, h204, h46, htext, hjb] at h
          · simp [handleResponse, h204, h46, htext, hjb]
        · simp [handleResponse, h204, h46, htext]
  · simp [handleResponse] at h

/-- Helper: every line the shared response handler prints is a diagnostic. -/
theorem handleResponse_printed_diagnostic (o : NetOutcome) (url : String) :
    ∀ s ∈ (handleResponse o url).2, isDiagnostic s := by
  rcases o with r | message
  · by_cases h204 : (r.status_code == 204) = true
    · simp [handleResponse, h204]
    · by_cases h46 : 400 ≤ r.status_code ∧ r.status_code < 600
      · intro s hs
        simp [handleResponse, h204, h46] at hs
        subst hs
        exact Or.inr (Or.inl ⟨_, rfl⟩)
      · by_cases htext : (r.text != "") = true
        · rcases hjb : r.jsonBody with _ | j2
          · intro s hs
            simp [handleResponse, h204, h46, htext, hjb] at hs
            rcases hs with hs | hs <;> subst hs
            · exact Or.inr (Or.inl ⟨_, rfl⟩)
            · exact Or.inr (Or.inr (Or.inl ⟨_, rfl⟩))
          · simp [handleResponse, h204, h46, htext, hjb]
        · simp [handleResponse, h204, h46, htext]
  · intro s hs
    simp [handleResponse] at hs
    subst hs
    exact Or.inr (Or.inl ⟨_, rfl⟩)

/-- Helper: whenever `_make_request` returns a value, it printed nothing. -/
theorem make_request_some_printed (client : ACMOJClient) (net : HttpRequest → NetOutcome)
    (method endpoint : String) (data params : List (String × String)) (j : Json)
    (h : (ACMOJClient.make_request client net method endpoint data params).result = some j) :
    (ACMOJClient.make_request client net method endpoint data params).printed = [] := by
  by_cases hg : (pyUpper method == "GET") = true
  · simp only [ACMOJClient.make_request, hg, if_pos] at h ⊢
    exact handleResponse_some_printed _ _ j h
  · by_cases hp : (pyUpper method == "POST") = true
    · simp only [ACMOJClient.make_request, hg, hp, if_pos, if_neg, Bool.false_eq_true,
        not_false_eq_true] at h ⊢
      exact handleResponse_some_printed _ _ j h
    · simp [ACMOJClient.make_request, hg, hp] at h

/-- Helper: every line `_make_request` prints is a diagnostic. -/
theorem make_request_printed_diagnostic (client : ACMOJClient) (net : HttpRequest → NetOutcome)
    (method endpoint : String) (data params : List (String × String)) :
    ∀ s ∈ (ACMOJClient.make_request client net method endpoint data params).printed,
      isDiagnostic s := by
  by_cases hg : (pyUpper method == "GET") = true
  · simp only [ACMOJClient.make_request, hg, if_pos]
    exact handleResponse_printed_diagnostic _ _
  · by_cases hp : (pyUpper method == "POST") = true
    · simp only [ACMOJClient.make_request, hg, hp, if_pos, if_neg, Bool.false_eq_true,
        not_false_eq_true]
      exact handleResponse_printed_diagnostic _ _
    · intro s hs
      simp [ACMOJClient.make_request, hg, hp] at hs
      subst hs
      exact Or.inr (Or.inr (Or.inr ⟨_, rfl⟩))

/-- Helper: the same two facts lifted to the two public operations. -/
theorem submit_solution_some_printed (client : ACMOJClient) (net : HttpRequest → NetOutcome)
    (problem_id : Int) (language code : String) (j : Json)
    (h : (ACMOJClient.submit_solution client net problem_id language code).result = some j) :
    (ACMOJClient.submit_solution client net problem_id language code).printed = [] :=
  make_request_some_printed client net _ _ _ _ j h

theorem get_submission_detail_some_printed (client : ACMOJClient) (net : HttpRequest → NetOutcome)
    (submission_id : Int) (j : Json)
    (h : (ACMOJClient.get_submission_detail client net submission_id).result = some j) :
    (ACMOJClient.get_submission_detail client net submission_id).printed = [] :=
  make_request_some_printed client net _ _ _ _ j h

/-- Helper: path analysis of `main`.  On every run, (1) when the `result`
variable holds a value the only lines on standard output are the
`finalPrint` of that value and the exit status is decided by its
truthiness, and (2) when `result` is not truthy every line on standard
output is a diagnostic. -/
theorem main_run_result_spec (args : Args) (fs : String → FileOutcome)
    (net : HttpRequest → NetOutcome) :
    (∀ j, (main_run args fs net).result = some j →
      (main_run args fs net).stdout = finalPrint (some j)
      ∧ (main_run args fs net).exit = ExitKind.normal (if Json.truthy j then 0 else 1))
    ∧ (resultTruthy (main_run args fs net).result = false →
      ∀ s ∈ (main_run args fs net).stdout, isDiagnostic s) := by
  cases htok : pyTruthy args.token with
  | false =>
    constructor
    · intro j h
      simp [main_run, htok] at h
    · intro _ s hs
      simp [main_run, htok] at hs
      subst hs
      exact Or.inl ⟨_, rfl⟩
  | true =>
    cases hcmd : args.command with
    | submit =>
      cases hcf : pyTruthy args.code_file with
      | false =>
        cases hgu : pyTruthy args.git_url with
        | false =>
          constructor
          · intro j h
            simp [main_run, htok, hcmd, hcf, hgu] at h
          · intro _ s hs
            simp [main_run, htok, hcmd, hcf, hgu] at hs
            subst hs
            exact Or.inl ⟨_, rfl⟩
        | true =>
          constructor
          · intro j h
            simp [main_run, htok, hcmd, hcf, hgu, finishResult] at h ⊢
            have hp := submit_solution_some_printed _ net args.problem_id args.language
              (args.git_url.getD "") j h
            simp [hp, h, resultTruthy, finalPrint]
          · intro hrt s hs
            simp [main_run, htok, hcmd, hcf, hgu, finishResult, resultTruthy] at hrt hs
            rcases hs with hs | hs
            · exact make_request_printed_diagnostic _ _ _ _ _ _ s hs
            · rcases hres : (ACMOJClient.submit_solution (ACMOJClient.init (args.token.getD ""))
                  net args.problem_id args.language (args.git_url.getD "")).result with _ | j
              · rw [hres] at hs; simp [finalPrint] at hs
              · rw [hres] at hs hrt
                simp at hrt
                simp [finalPrint, hrt] at hs
      | true =>
        cases hgu : pyTruthy args.git_url with
        | true =>
          constructor
          · intro j h
            simp [main_run, htok, hcmd, hcf, hgu] at h
          · intro _ s hs
            simp [main_run, htok, hcmd, hcf, hgu] at hs
            subst hs
            exact Or.inl ⟨_, rfl⟩
        | false =>
          rcases hfs : fs (args.code_file.getD "") with code | _ | message
          · constructor
            · intro j h
              simp [main_run, htok, hcmd, hcf, hgu, hfs, finishResult] at h ⊢
              have hp := submit_solution_some_printed _ net args.problem_id args.language
                code j h
              simp [hp, h, resultTruthy, finalPrint]
            · intro hrt s hs
              simp [main_run, htok, hcmd, hcf, hgu, hfs, finishResult, resultTruthy] at hrt hs
              rcases hs with hs | hs
              · exact make_request_printed_diagnostic _ _ _ _ _ _ s hs
              · rcases hres : (ACMOJClient.submit_solution (ACMOJClient.init (args.token.getD ""))
                    net args.problem_id args.language code).result with _ | j
                · rw [hres] at hs; simp [finalPrint] at hs
                · rw [hres] at hs hrt
                  simp at hrt
                  simp [finalPrint, hrt] at hs
          · constructor
            · intro j h
              simp [main_run, htok, hcmd, hcf, hgu, hfs, finishResult, finalPrint] at h
            · intro _ s hs
              simp [main_run, htok, hcmd, hcf, hgu, hfs, finishResult, finalPrint,
                resultTruthy] at hs
              subst hs
              exact Or.inl ⟨_, rfl⟩
          · constructor
            · intro j h
              simp [main_run, htok, hcmd, hcf, hgu, hfs] at h
            · intro _ s hs
              simp [main_run, htok, hcmd, hcf, hgu, hfs] at hs
    | status =>
      constructor
      · intro j h
        simp [main_run, htok, hcmd, finishResult] at h ⊢
        have hp := get_submission_detail_some_printed _ net args.submission_id j h
        simp [hp, h, resultTruthy, finalPrint]
      · intro hrt s hs
        simp [main_run, htok, hcmd, finishResult, resultTruthy] at hrt hs
        rcases hs with hs | hs
        · exact make_request_printed_diagnostic _ _ _ _ _ _ s hs
        · rcases hres : (ACMOJClient.get_submission_detail (ACMOJClient.init (args.token.getD ""))
              net args.submission_id).result with _ | j
          · rw [hres] at hs; simp [finalPrint] at hs
          · rw [hres] at hs hrt
            simp at hrt
            simp [finalPrint, hrt] at hs

/-- C1: with no token from the flag and none from the environment, `main`
prints the error, constructs no client and issues no request - but then
`return`s, so the process exits with status 0, not non-zero as claimed:
the claim is right about everything except the exit status, and the exit
status contradicts both the program's own exit-code convention (every
other error path calls `exit(1)` to signal failure to shell scripts) and
its documented contract. -/
theorem c1_missing_token_run :
    main_run
      { token := none, command := Command.submit, problem_id := 1, language := "cpp",
        code_file := some "solution.cpp", git_url := none, submission_id := 0 }
      (fun _ => FileOutcome.ok "int main()") (fun _ => NetOutcome.netError "network used")
    = { stdout := [tokenErrorMessage], exit := ExitKind.normal 0, requests := [],
        clientConstructed := false, result := none } := rfl

/-- C5: a 204 response is normalized to the fixed success marker object,
for any method actually dispatched (GET or POST), any endpoint, any
payload. -/
theorem c5_no_content_marker (client : ACMOJClient) (net : HttpRequest → NetOutcome)
    (method endpoint : String) (data params : List (String × String)) (r : HttpResponse)
    (hmethod : pyUpper method = "GET" ∨ pyUpper method = "POST")
    (hnet : ∀ q, net q = NetOutcome.response r)
    (hstatus : r.status_code = 204) :
    (ACMOJClient.make_request client net method endpoint data params).result
      = some (Json.obj [("status", Json.str "success"),
                        ("message", Json.str "Operation successful")]) := by
  rcases hmethod with h | h <;>
    simp [ACMOJClient.make_request, h, hnet, handleResponse, hstatus, successMarker204,
      pyUpper_post_beq_get]

theorem c5_witness :
    (ACMOJClient.make_request (ACMOJClient.init "t")
        (fun _ => NetOutcome.response { status_code := 204, text := "", jsonBody := none })
        "GET" "/submission/1" [] []).result
      = some (Json.obj [("status", Json.str "success"),
                        ("message", Json.str "Operation successful")]) :=
  c5_no_content_marker (ACMOJClient.init "t") _ "GET" "/submission/1" [] []
    { status_code := 204, text := "", jsonBody := none }
    (Or.inl rfl) (fun _ => rfl) rfl

/-- C6: on a 2xx status other than 204, an empty body normalizes to the
bare success marker, and a non-empty body that decodes as JSON is returned
to the caller exactly as decoded, uninterpreted. -/
theorem c6_success_body (client : ACMOJClient) (net : HttpRequest → NetOutcome)
    (method endpoint : String) (data params : List (String × String)) (r : HttpResponse)
    (hmethod : pyUpper method = "GET" ∨ pyUpper method = "POST")
    (hnet : ∀ q, net q = NetOutcome.response r)
    (hlo : 200 ≤ r.status_code) (hhi : r.status_code < 300) (h204 : r.status_code ≠ 204) :
    (r.text = "" →
      (ACMOJClient.make_request client net method endpoint data params).result
        = some (Json.obj [("status", Json.str "success")]))
    ∧ (∀ j, r.jsonBody = some j → r.text ≠ "" →
      (ACMOJClient.make_request client net method endpoint data params).result = some j) := by
  have hb204 : (r.status_code == 204) = false := by
    simp only [beq_eq_false_iff_ne, ne_eq]
    exact h204
  have h46 : ¬(400 ≤ r.status_code ∧ r.status_code < 600) := by omega
  constructor
  · intro htext
    rcases hmethod with h | h <;>
      simp [ACMOJClient.make_request, h, hnet, handleResponse, hb204, h46, htext,
        successMarkerEmpty, pyUpper_post_beq_get]
  · intro j hjb htext
    have hbt : (r.text != "") = true := by simp [htext]
    rcases hmethod with h | h <;>
      simp [ACMOJClient.make_request, h, hnet, handleResponse, hb204, h46, hbt, hjb,
        pyUpper_post_beq_get]

theorem c6_witness :
    ((ACMOJClient.make_request (ACMOJClient.init "t")
        (fun _ => NetOutcome.response { status_code := 200, text := "", jsonBody := none })
        "GET" "/submission/1" [] []).result
      = some (Json.obj [("status", Json.str "success")]))
    ∧ ((ACMOJClient.make_request (ACMOJClient.init "t")
        (fun _ => NetOutcome.response
          { status_code := 200, text := "5678", jsonBody := some (Json.num 5678) })
        "GET" "/submission/1" [] []).result
      = some (Json.num 5678)) :=
  ⟨(c6_success_body (ACMOJClient.init "t") _ "GET" "/submission/1" [] []
      { status_code := 200, text := "", jsonBody := none }
      (Or.inl rfl) (fun _ => rfl) (by decide) (by decide) (by decide)).1 rfl,
   (c6_success_body (ACMOJClient.init "t") _ "GET" "/submission/1" [] []
      { status_code := 200, text := "5678", jsonBody := some (Json.num 5678) }
      (Or.inl rfl) (fun _ => rfl) (by decide) (by decide) (by decide)).2
      (Json.num 5678) rfl (by decide)⟩

/-- C7: `submit_solution` issues exactly one request: a POST to
`{base}/problem/{problem_id}/submit` carrying the client's headers (with
the form content type) and the form fields `language` and `code` taken
verbatim from its arguments. -/
theorem c7_submit_single_post (token : String) (net : HttpRequest → NetOutcome)
    (problem_id : Int) (language code : String) :
    (ACMOJClient.submit_solution (ACMOJClient.init token) net problem_id language code).requests
      = [{ method := "POST",
           url := "https://acm.sjtu.edu.cn/OnlineJudge/api/v1"
             ++ ("/problem/" ++ toString problem_id ++ "/submit"),
           headers := [("Authorization", "Bearer " ++ token),
                       ("Content-Type", "application/x-www-form-urlencoded"),
                       ("User-Agent", "ACMOJ-Python-Client/2.1")],
           data := [("language", language), ("code", code)],
           params := [] }] := rfl

/-- C10: neither operation changes the client state: the base endpoint
string and the header mapping after a call are the ones from before it, on
every network outcome. -/
theorem c10_client_state_unchanged (client : ACMOJClient) (net : HttpRequest → NetOutcome)
    (problem_id : Int) (language code : String) (submission_id : Int) :
    ((ACMOJClient.submit_solution client net problem_id language code).clientAfter.api_base
        = client.api_base
      ∧ (ACMOJClient.submit_solution client net problem_id language code).clientAfter.headers
        = client.headers)
    ∧ ((ACMOJClient.get_submission_detail client net submission_id).clientAfter.api_base
        = client.api_base
      ∧ (ACMOJClient.get_submission_detail client net submission_id).clientAfter.headers
        = client.headers) :=
  ⟨⟨rfl, rfl⟩, ⟨rfl, rfl⟩⟩

/-- C2 counterexample: at a 404 with body text `not found`, the operation
does return a failure signal, but the error report does not include the
raw body text, although it is available - `if 'response' in locals() and
response:` tests `bool(response)`, which is false for every non-success
status; and at a 304 (non-success, not 2xx, not 204) no failure signal is
produced at all: `raise_for_status` does not raise below 400, so the
empty-body success marker is returned. -/
theorem c2_counterexample :
    ((ACMOJClient.get_submission_detail (ACMOJClient.init "token")
        (fun _ => NetOutcome.response
          { status_code := 404, text := "not found", jsonBody := none }) 9999).result = none
      ∧ "Response text: not found"
          ∉ (ACMOJClient.get_submission_detail (ACMOJClient.init "token")
              (fun _ => NetOutcome.response
                { status_code := 404, text := "not found", jsonBody := none }) 9999).printed)
    ∧ (ACMOJClient.get_submission_detail (ACMOJClient.init "token")
        (fun _ => NetOutcome.response
          { status_code := 304, text := "", jsonBody := none }) 9999).result
      = some (Json.obj [("status", Json.str "success")]) :=
  ⟨⟨rfl, by decide⟩, rfl⟩

/-- C2 amended: for every HTTP response with a 4xx or 5xx status, each
transport operation returns a failure signal (no result) rather than
raising past the caller, and reports the error with exactly one diagnostic
line - which does not include the response body text. -/
theorem c2_http_error_failure (client : ACMOJClient) (net : HttpRequest → NetOutcome)
    (problem_id submission_id : Int) (language code : String) (r : HttpResponse)
    (hnet : ∀ q, net q = NetOutcome.response r)
    (h4 : 400 ≤ r.status_code) (h6 : r.status_code < 600) :
    ((ACMOJClient.submit_solution client net problem_id language code).result = none
      ∧ (ACMOJClient.submit_solution client net problem_id language code).printed
        = ["API Request failed: " ++ httpErrorMessage r.status_code
            (client.api_base ++ ("/problem/" ++ toString problem_id ++ "/submit"))])
    ∧ ((ACMOJClient.get_submission_detail client net submission_id).result = none
      ∧ (ACMOJClient.get_submission_detail client net submission_id).printed
        = ["API Request failed: " ++ httpErrorMessage r.status_code
            (client.api_base ++ ("/submission/" ++ toString submission_id))]) := by
  have hb204 : (r.status_code == 204) = false := by
    simp only [beq_eq_false_iff_ne, ne_eq]
    omega
  constructor <;>
    simp [ACMOJClient.submit_solution, ACMOJClient.get_submission_detail,
      ACMOJClient.make_request, hnet, handleResponse, hb204, h4, h6,
      pyUpper_post_eq, pyUpper_get_eq, get_ne_post, post_ne_get]

theorem c2_witness :
    ((ACMOJClient.submit_solution (ACMOJClient.init "t")
        (fun _ => NetOutcome.response { status_code := 500, text := "boom", jsonBody := none })
        2 "cpp" "x").result = none)
    ∧ ((ACMOJClient.get_submission_detail (ACMOJClient.init "t")
        (fun _ => NetOutcome.response { status_code := 500, text := "boom", jsonBody := none })
        9).result = none) :=
  ⟨(c2_http_error_failure (ACMOJClient.init "t") _ 2 9 "cpp" "x"
      { status_code := 500, text := "boom", jsonBody := none }
      (fun _ => rfl) (by decide) (by decide)).1.1,
   (c2_http_error_failure (ACMOJClient.init "t") _ 2 9 "cpp" "x"
      { status_code := 500, text := "boom", jsonBody := none }
      (fun _ => rfl) (by decide) (by decide)).2.1⟩

/-- C3 counterexample: when opening the code file raises an error other
than `FileNotFoundError` - here a permission error - nothing is caught:
the `except FileNotFoundError` handler does not match, the exception
propagates out of `main` uncaught, and no message with the offending path
is printed by the program.  So the claim's "missing or unreadable ...
caught at the point of file access, reported with the offending path"
fails for the unreadable case. -/
theorem c3_counterexample :
    main_run
      { token := some "token", command := Command.submit, problem_id := 3, language := "cpp",
        code_file := some "locked.cpp", git_url := none, submission_id := 0 }
      (fun _ => FileOutcome.otherError "PermissionError 13: Permission denied: locked.cpp")
      (fun _ => NetOutcome.netError "network used")
    = { stdout := [], exit := ExitKind.uncaught "PermissionError 13: Permission denied: locked.cpp",
        requests := [], clientConstructed := true, result := none } := rfl

/-- C3 amended: for every submit invocation with a truthy `--code-file`
path whose file is missing (`FileNotFoundError`), the error is caught at
the point of file access, reported with the offending path, no network
call occurs, and the process exits with a non-zero status code.  (Other
I/O errors at the same point are not caught.) -/
theorem c3_missing_file (args : Args) (fs : String → FileOutcome)
    (net : HttpRequest → NetOutcome)
    (hcmd : args.command = Command.submit) (htok : pyTruthy args.token = true)
    (hcf : pyTruthy args.code_file = true) (hgu : pyTruthy args.git_url = false)
    (hfs : fs (args.code_file.getD "") = FileOutcome.notFound) :
    (main_run args fs net).stdout
      = ["Error: Code file not found at " ++ args.code_file.getD ""]
    ∧ (main_run args fs net).requests = []
    ∧ (main_run args fs net).exit = ExitKind.normal 1 := by
  refine ⟨?_, ?_, ?_⟩ <;>
    simp [main_run, htok, hcmd, hcf, hgu, hfs, finishResult, finalPrint, resultTruthy,
      fileNotFoundMessage]

theorem c3_witness :
    (main_run
        { token := some "t", command := Command.submit, problem_id := 7, language := "cpp",
          code_file := some "missing.cpp", git_url := none, submission_id := 0 }
        (fun _ => FileOutcome.notFound) (fun _ => NetOutcome.netError "network used")).stdout
      = ["Error: Code file not found at missing.cpp"]
    ∧ (main_run
        { token := some "t", command := Command.submit, problem_id := 7, language := "cpp",
          code_file := some "missing.cpp", git_url := none, submission_id := 0 }
        (fun _ => FileOutcome.notFound) (fun _ => NetOutcome.netError "network used")).requests
      = []
    ∧ (main_run
        { token := some "t", command := Command.submit, problem_id := 7, language := "cpp",
          code_file := some "missing.cpp", git_url := none, submission_id := 0 }
        (fun _ => FileOutcome.notFound) (fun _ => NetOutcome.netError "network used")).exit
      = ExitKind.normal 1 :=
  c3_missing_file
    { token := some "t", command := Command.submit, problem_id := 7, language := "cpp",
      code_file := some "missing.cpp", git_url := none, submission_id := 0 }
    (fun _ => FileOutcome.notFound) (fun _ => NetOutcome.netError "network used")
    rfl rfl rfl rfl rfl

/-- C4 counterexample: a failing run (404 on a status lookup, exit status
1) with a non-empty standard output: the diagnostic `API Request failed:`
line is printed there, because every `print` in the program writes to
standard output - nothing is ever written to the error stream.  This
falsifies both "on any failure nothing is written to standard output" and
"failure diagnostics go to the error stream". -/
theorem c4_counterexample :
    (main_run
        { token := some "token", command := Command.status, problem_id := 0, language := "",
          code_file := none, git_url := none, submission_id := 9999 }
        (fun _ => FileOutcome.notFound)
        (fun _ => NetOutcome.response { status_code := 404, text := "", jsonBody := none })).exit
      = ExitKind.normal 1
    ∧ (main_run
        { token := some "token", command := Command.status, problem_id := 0, language := "",
          code_file := none, git_url := none, submission_id := 9999 }
        (fun _ => FileOutcome.notFound)
        (fun _ => NetOutcome.response { status_code := 404, text := "", jsonBody := none })).stdout
      ≠ [] :=
  ⟨rfl, by decide⟩

/-- C4 amended: on success the process writes exactly one line to standard
output, the compact JSON serialization of the result (a line with no
newline character inside it); on failure no result is written and every
line written is a failure diagnostic, also on standard output - the
program itself writes nothing to the error stream. -/
theorem c4_output_contract (args : Args) (fs : String → FileOutcome)
    (net : HttpRequest → NetOutcome) :
    (∀ j, (main_run args fs net).result = some j → Json.truthy j = true →
      (main_run args fs net).stdout = [Json.dumps j] ∧ '\n' ∉ (Json.dumps j).data)
    ∧ (resultTruthy (main_run args fs net).result = false →
      ∀ s ∈ (main_run args fs net).stdout, isDiagnostic s) := by
  have hspec := main_run_result_spec args fs net
  refine ⟨?_, hspec.2⟩
  intro j h ht
  refine ⟨?_, dumps_no_newline j⟩
  rw [(hspec.1 j h).1]
  simp [finalPrint, ht]

theorem c4_witness :
    (main_run
        { token := some "t", command := Command.status, problem_id := 0, language := "",
          code_file := none, git_url := none, submission_id := 5678 }
        (fun _ => FileOutcome.notFound)
        (fun _ => NetOutcome.response
          { status_code := 200, text := "x",
            jsonBody := some (Json.obj [("id", Json.num 5678)]) })).stdout
      = [Json.dumps (Json.obj [("id", Json.num 5678)])] :=
  ((c4_output_contract
      { token := some "t", command := Command.status, problem_id := 0, language := "",
        code_file := none, git_url := none, submission_id := 5678 }
      (fun _ => FileOutcome.notFound)
      (fun _ => NetOutcome.response
        { status_code := 200, text := "x",
          jsonBody := some (Json.obj [("id", Json.num 5678)]) })).1
    (Json.obj [("id", Json.num 5678)]) rfl rfl).1

/-- C8 counterexample: both `--code-file` and `--git-url` are supplied on
the command line - the code file with an empty value - yet a network call
occurs: the validation tests Python truthiness, so an empty string counts
as "not supplied" and the both-supplied error is skipped. -/
theorem c8_counterexample :
    (main_run
        { token := some "token", command := Command.submit, problem_id := 1, language := "git",
          code_file := some "", git_url := some "https://example.com/repo.git",
          submission_id := 0 }
        (fun _ => FileOutcome.notFound)
        (fun _ => NetOutcome.response { status_code := 404, text := "", jsonBody := none })).requests
      ≠ [] := by decide

/-- C8 amended: for every submit invocation where the two payload flags
are both falsy (absent or empty), or both truthy (present and non-empty),
the user error is reported, no network call occurs, and the process exits
with a non-zero status code. -/
theorem c8_payload_validation (args : Args) (fs : String → FileOutcome)
    (net : HttpRequest → NetOutcome)
    (hcmd : args.command = Command.submit) (htok : pyTruthy args.token = true)
    (h : (pyTruthy args.code_file = false ∧ pyTruthy args.git_url = false)
      ∨ (pyTruthy args.code_file = true ∧ pyTruthy args.git_url = true)) :
    (main_run args fs net).requests = []
    ∧ (main_run args fs net).exit = ExitKind.normal 1
    ∧ ((main_run args fs net).stdout = [missingPayloadMessage]
      ∨ (main_run args fs net).stdout = [bothPayloadMessage]) := by
  rcases h with ⟨hcf, hgu⟩ | ⟨hcf, hgu⟩
  · refine ⟨?_, ?_, Or.inl ?_⟩ <;> simp [main_run, htok, hcmd, hcf, hgu]
  · refine ⟨?_, ?_, Or.inr ?_⟩ <;> simp [main_run, htok, hcmd, hcf, hgu]

theorem c8_witness :
    (main_run
        { token := some "t", command := Command.submit, problem_id := 1, language := "cpp",
          code_file := none, git_url := none, submission_id := 0 }
        (fun _ => FileOutcome.notFound) (fun _ => NetOutcome.netError "network used")).requests
      = []
    ∧ (main_run
        { token := some "t", command := Command.submit, problem_id := 1, language := "cpp",
          code_file := none, git_url := none, submission_id := 0 }
        (fun _ => FileOutcome.notFound) (fun _ => NetOutcome.netError "network used")).exit
      = ExitKind.normal 1
    ∧ ((main_run
        { token := some "t", command := Command.submit, problem_id := 1, language := "cpp",
          code_file := none, git_url := none, submission_id := 0 }
        (fun _ => FileOutcome.notFound) (fun _ => NetOutcome.netError "network used")).stdout
      = [missingPayloadMessage]
      ∨ (main_run
        { token := some "t", command := Command.submit, problem_id := 1, language := "cpp",
          code_file := none, git_url := none, submission_id := 0 }
        (fun _ => FileOutcome.notFound) (fun _ => NetOutcome.netError "network used")).stdout
      = [bothPayloadMessage]) :=
  c8_payload_validation
    { token := some "t", command := Command.submit, problem_id := 1, language := "cpp",
      code_file := none, git_url := none, submission_id := 0 }
    (fun _ => FileOutcome.notFound) (fun _ => NetOutcome.netError "network used")
    rfl rfl (Or.inl ⟨rfl, rfl⟩)

/-- C9: whenever the `result` variable holds the decoded empty JSON object,
the front end prints nothing to standard output and exits with status 1:
`if result:` tests dict truthiness, and the empty dict is falsy, even
though the transport call succeeded and returned a result. -/
theorem c9_empty_object_failure (args : Args) (fs : String → FileOutcome)
    (net : HttpRequest → NetOutcome)
    (h : (main_run args fs net).result = some (Json.obj [])) :
    (main_run args fs net).stdout = [] ∧ (main_run args fs net).exit = ExitKind.normal 1 := by
  have hspec := (main_run_result_spec args fs net).1 (Json.obj []) h
  refine ⟨?_, ?_⟩
  · rw [hspec.1]; rfl
  · rw [hspec.2]; rfl

theorem c9_witness :
    (main_run
        { token := some "t", command := Command.status, problem_id := 0, language := "",
          code_file := none, git_url := none, submission_id := 42 }
        (fun _ => FileOutcome.notFound)
        (fun _ => NetOutcome.response
          { status_code := 200, text := "\x7b\x7d", jsonBody := some (Json.obj []) })).stdout
      = []
    ∧ (main_run
        { token := some "t", command := Command.status, problem_id := 0, language := "",
          code_file := none, git_url := none, submission_id := 42 }
        (fun _ => FileOutcome.notFound)
        (fun _ => NetOutcome.response
          { status_code := 200, text := "\x7b\x7d", jsonBody := some (Json.obj []) })).exit
      = ExitKind.normal 1 :=
  c9_empty_object_failure
    { token := some "t", command := Command.status, problem_id := 0, language := "",
      code_file := none, git_url := none, submission_id := 42 }
    (fun _ => FileOutcome.notFound)
    (fun _ => NetOutcome.response
      { status_code := 200, text := "\x7b\x7d", jsonBody := some (Json.obj []) })
    rfl
